import Mathlib

/-
Verification of the real-time presence and room-messaging subsystem of the
Ashraya platform (src/server/sockets/chatHandler.js).

The embedding models the socket layer the way the handler code uses it:

* `Socket` carries the per-connection fields the code reads and writes
  (`socket.id`, `socket.userId`, `socket.userName`, `socket.userRole`) together
  with the set of rooms the socket is currently joined to (`socket.rooms`,
  maintained by `socket.join` / `socket.leave`; a socket is always in the room
  named by its own id).
* The two module-level maps `activeUsers` and `userRooms` are association
  lists with JavaScript `Map` semantics (`set` replaces an existing key,
  `delete` removes it).
* Each `socket.on(...)` callback becomes a pure function from the server state
  and the event payload to the new server state plus the list of emitted
  events; `socket.emit`, `io.to(room).emit` and `socket.to(room).emit` become
  `Emitted` values with an explicit delivery target.
* Non-deterministic runtime inputs (the generated message id, the current
  time, the outcome of jwt.verify + User.findById) are passed as parameters.
-/

namespace Ashraya

/-- Identity resolved during authentication: the combined result of
jwt.verify plus User.findById(...).select(name role isActive)
(chatHandler.js lines 14-15). A failed verification or a missing user is
modelled by the surrounding Option. -/
structure AuthUser where
  id : String
  name : String
  role : String
  isActive : Bool
deriving DecidableEq, Repr

/-- Value stored in the activeUsers map (chatHandler.js lines 27-32). -/
structure ActiveUserEntry where
  socketId : String
  name : String
  role : String
  joinedAt : Nat
deriving DecidableEq, Repr

/-- Per-connection socket state: the fields the handler code reads and
writes, plus the socket.io room set (which always contains the socket's own
id). -/
structure Socket where
  sid : String
  userId : Option String
  userName : String
  userRole : String
  rooms : List String
deriving DecidableEq, Repr

/-- The message object built by the sendMessage handler
(chatHandler.js lines 98-108). -/
structure MessageData where
  mid : String
  senderId : String
  senderName : String
  senderRole : String
  message : String
  timestamp : Nat
  groupId : String
deriving DecidableEq, Repr

/-- The message object built by the privateMessage handler
(chatHandler.js lines 149-164). -/
structure PrivateMessageData where
  mid : String
  fromId : String
  fromName : String
  fromRole : String
  toId : String
  toName : String
  toRole : String
  message : String
  timestamp : Nat
  isPrivate : Bool
deriving DecidableEq, Repr

/-- Outbound events emitted by the handlers. -/
inductive OutEvent where
  | authError (reason : String)
  | authenticated (id name role : String)
  | errorEv (reason : String)
  | userJoined (userId name role : String)
  | roomInfo (groupId : String) (users : List ActiveUserEntry)
  | message (m : MessageData)
  | typing (userId name : String) (isTyping : Bool)
  | privateMessage (m : PrivateMessageData)
  | messageDelivered (messageId recipientId : String)
  | therapyUserJoined (userId name role : String)
  | videoCallSignal (fromUserId signal ty : String)
  | userLeft (userId name role : String)
  | notifyUser (payload : String)
deriving DecidableEq, Repr

/-- Delivery target of an emitted event: `direct sid` is socket.emit on the
socket with id `sid`; `room r` is io.to(r).emit (every socket joined to room
`r`); `roomExcept r sid` is socket.to(r).emit (every socket joined to room
`r` other than the sender `sid`). -/
inductive Target where
  | direct (sid : String)
  | room (roomId : String)
  | roomExcept (roomId : String) (exceptSid : String)
deriving DecidableEq, Repr

/-- One emitted event together with its delivery target. -/
structure Emitted where
  target : Target
  event : OutEvent
deriving DecidableEq, Repr

/-- Whether socket `s` is a recipient of emitted event `e`, given that `s`
is a live socket of the server. -/
def receivesEmit (e : Emitted) (s : Socket) : Bool :=
  match e.target with
  | .direct sid => s.sid == sid
  | .room r => r ∈ s.rooms
  | .roomExcept r ex => r ∈ s.rooms && s.sid != ex

/-- JavaScript Map.get as an association-list lookup. -/
def assocGet (k : String) : List (String × α) → Option α
  | [] => none
  | p :: rest => if p.1 = k then some p.2 else assocGet k rest

/-- JavaScript Map.set: replaces the entry for an existing key in place,
otherwise appends a new entry. -/
def assocSet (k : String) (v : α) : List (String × α) → List (String × α)
  | [] => [(k, v)]
  | p :: rest => if p.1 = k then (k, v) :: rest else p :: assocSet k v rest

/-- JavaScript Map.delete. -/
def assocDel (k : String) (l : List (String × α)) : List (String × α) :=
  l.filter (fun p => p.1 ≠ k)

/-- The keys of a map. -/
def assocKeys (l : List (String × α)) : List String :=
  l.map Prod.fst

/-- socket.join: socket.io room sets never hold duplicates. -/
def joinRoom (r : String) (rooms : List String) : List String :=
  if r ∈ rooms then rooms else rooms ++ [r]

/-- socket.leave. -/
def leaveRoom (r : String) (rooms : List String) : List String :=
  rooms.filter (fun x => x ≠ r)

/-- previousRooms.forEach(room => socket.leave(room))
(chatHandler.js lines 55-57). -/
def leaveRooms (toLeave rooms : List String) : List String :=
  toLeave.foldl (fun rs r => leaveRoom r rs) rooms

/-- io.sockets.sockets.get. -/
def getSocket (sid : String) (l : List Socket) : Option Socket :=
  l.find? (fun s => s.sid = sid)

/-- Replace the state of the socket with id `sid`. -/
def updateSocket (sid : String) (f : Socket → Socket) (l : List Socket) : List Socket :=
  l.map (fun s => if s.sid = sid then f s else s)

/-- The runtime forgets a socket when its connection closes. -/
def removeSocket (sid : String) (l : List Socket) : List Socket :=
  l.filter (fun s => s.sid ≠ sid)

/-- The process-wide server state: the two module-level maps
(chatHandler.js lines 5-6) and the live sockets of the socket.io runtime. -/
structure ServerState where
  activeUsers : List (String × ActiveUserEntry)
  userRooms : List (String × List String)
  sockets : List Socket
deriving DecidableEq, Repr

/-- JavaScript falsiness of an optional string field: undefined and the
empty string are falsy. -/
def jsFalsy : Option String → Bool
  | none => true
  | some s => s == ""

/-- JavaScript String.prototype.trim: strips whitespace from both ends of
the string. -/
def jsTrim (s : String) : String :=
  String.mk (((s.data.dropWhile Char.isWhitespace).reverse.dropWhile Char.isWhitespace).reverse)

/-- The disconnect handler (chatHandler.js lines 213-234): when the socket
had authenticated, delete its user id from activeUsers and userRooms and
broadcast a userLeft event to every room the socket was in other than its
own-id room; in every case the runtime then removes the socket. -/
def onDisconnect (st : ServerState) (sid : String) : ServerState × List Emitted :=
  match getSocket sid st.sockets with
  | none => (st, [])
  | some s =>
    match s.userId with
    | none => ({ st with sockets := removeSocket sid st.sockets }, [])
    | some uid =>
      let st' : ServerState :=
        { activeUsers := assocDel uid st.activeUsers
          userRooms := assocDel uid st.userRooms
          sockets := removeSocket sid st.sockets }
      let emits := (s.rooms.filter (fun r => r ≠ sid)).map
        (fun r => Emitted.mk (.roomExcept r sid) (.userLeft uid s.userName s.userRole))
      (st', emits)

/-- The authenticate handler (chatHandler.js lines 12-45). `res` is the
outcome of jwt.verify + User.findById: `none` when verification throws or
the user is not found (caught at line 40), `some au` when a user document
was loaded. An inactive user is rejected like a missing one (line 17).
Failure emits auth_error and calls socket.disconnect(), which fires the
disconnect handler. -/
def onAuthenticate (st : ServerState) (sid : String) (res : Option AuthUser)
    (now : Nat) : ServerState × List Emitted :=
  match getSocket sid st.sockets with
  | none => (st, [])
  | some s =>
    match res with
    | none =>
      let r := onDisconnect st sid
      (r.1, Emitted.mk (.direct sid) (.authError "Authentication failed") :: r.2)
    | some au =>
      if au.isActive then
        let sockets' := updateSocket sid
          (fun s0 => { s0 with userId := some au.id, userName := au.name, userRole := au.role })
          st.sockets
        let activeUsers' := assocSet au.id
          (ActiveUserEntry.mk sid au.name au.role now) st.activeUsers
        ({ st with sockets := sockets', activeUsers := activeUsers' },
         [Emitted.mk (.direct sid) (.authenticated au.id au.name au.role)])
      else
        let r := onDisconnect st sid
        (r.1, Emitted.mk (.direct sid) (.authError "Invalid user") :: r.2)

/-- The joinGroup handler (chatHandler.js lines 48-83): guard on
socket.userId, leave every room recorded in userRooms for that user, join
the new group, set userRooms to the singleton [groupId], notify the others
in the room, and send the joiner a snapshot of the active users whose
socket is in the room. -/
def onJoinGroup (st : ServerState) (sid : String) (groupId : String) :
    ServerState × List Emitted :=
  match getSocket sid st.sockets with
  | none => (st, [])
  | some s =>
    match s.userId with
    | none => (st, [Emitted.mk (.direct sid) (.errorEv "Authentication required")])
    | some uid =>
      let previousRooms := (assocGet uid st.userRooms).getD []
      let rooms' := joinRoom groupId (leaveRooms previousRooms s.rooms)
      let sockets' := updateSocket sid (fun s0 => { s0 with rooms := rooms' }) st.sockets
      let userRooms' := assocSet uid [groupId] st.userRooms
      let st' : ServerState :=
        { activeUsers := st.activeUsers, userRooms := userRooms', sockets := sockets' }
      let roomUsers := (st'.activeUsers.map Prod.snd).filter fun u =>
        match getSocket u.socketId st'.sockets with
        | some us => groupId ∈ us.rooms
        | none => false
      (st', [Emitted.mk (.roomExcept groupId sid) (.userJoined uid s.userName s.userRole),
             Emitted.mk (.direct sid) (.roomInfo groupId roomUsers)])

/-- The sendMessage handler (chatHandler.js lines 86-117): guard on
socket.userId, reject a missing groupId or missing/blank message, then
broadcast the message object to the whole room via io.to(groupId). The
state is not mutated. -/
def onSendMessage (st : ServerState) (sid : String) (groupId message : Option String)
    (msgId : String) (now : Nat) : ServerState × List Emitted :=
  match getSocket sid st.sockets with
  | none => (st, [])
  | some s =>
    match s.userId with
    | none => (st, [Emitted.mk (.direct sid) (.errorEv "Authentication required")])
    | some uid =>
      if jsFalsy groupId || jsFalsy message || jsFalsy (message.map jsTrim) then
        (st, [Emitted.mk (.direct sid) (.errorEv "Invalid message data")])
      else
        let g := groupId.getD ""
        let m := jsTrim (message.getD "")
        (st, [Emitted.mk (.room g)
          (.message (MessageData.mk msgId uid s.userName s.userRole m now g))])

/-- The typing handler (chatHandler.js lines 120-130): silently ignores
unauthenticated sockets, otherwise relays the indicator to the room
excluding the sender. -/
def onTyping (st : ServerState) (sid : String) (groupId : String) (isTyping : Bool) :
    ServerState × List Emitted :=
  match getSocket sid st.sockets with
  | none => (st, [])
  | some s =>
    match s.userId with
    | none => (st, [])
    | some uid =>
      (st, [Emitted.mk (.roomExcept groupId sid) (.typing uid s.userName isTyping)])

/-- The privateMessage handler (chatHandler.js lines 133-176): guard on
socket.userId, reject missing/blank fields, look the recipient up in
activeUsers; if absent reply to the sender with an error, otherwise deliver
the private message to the recipient's socket id and confirm to the
sender. The state is not mutated and nothing is queued. -/
def onPrivateMessage (st : ServerState) (sid : String)
    (recipientId message : Option String) (msgId : String) (now : Nat) :
    ServerState × List Emitted :=
  match getSocket sid st.sockets with
  | none => (st, [])
  | some s =>
    match s.userId with
    | none => (st, [Emitted.mk (.direct sid) (.errorEv "Authentication required")])
    | some uid =>
      if jsFalsy recipientId || jsFalsy message || jsFalsy (message.map jsTrim) then
        (st, [Emitted.mk (.direct sid) (.errorEv "Invalid message data")])
      else
        let rid := recipientId.getD ""
        let m := jsTrim (message.getD "")
        match assocGet rid st.activeUsers with
        | none => (st, [Emitted.mk (.direct sid) (.errorEv "Recipient not found or offline")])
        | some recipient =>
          (st, [Emitted.mk (.room recipient.socketId)
                  (.privateMessage (PrivateMessageData.mk msgId uid s.userName s.userRole
                     rid recipient.name recipient.role m now true)),
                Emitted.mk (.direct sid) (.messageDelivered msgId rid)])

/-- The joinTherapySession handler (chatHandler.js lines 179-196): guard on
socket.userId, join the room therapy_<sessionId> and notify the others in
it. It neither leaves any previous room nor touches userRooms. -/
def onJoinTherapySession (st : ServerState) (sid : String) (sessionId : String) :
    ServerState × List Emitted :=
  match getSocket sid st.sockets with
  | none => (st, [])
  | some s =>
    match s.userId with
    | none => (st, [Emitted.mk (.direct sid) (.errorEv "Authentication required")])
    | some uid =>
      let therapyRoom := "therapy_" ++ sessionId
      let sockets' := updateSocket sid
        (fun s0 => { s0 with rooms := joinRoom therapyRoom s0.rooms }) st.sockets
      ({ st with sockets := sockets' },
       [Emitted.mk (.roomExcept therapyRoom sid)
          (.therapyUserJoined uid s.userName s.userRole)])

/-- The videoCallSignal handler (chatHandler.js lines 199-210): silently
ignores unauthenticated sockets, otherwise relays the signal to the therapy
room excluding the sender. -/
def onVideoCallSignal (st : ServerState) (sid : String)
    (sessionId signal ty : String) : ServerState × List Emitted :=
  match getSocket sid st.sockets with
  | none => (st, [])
  | some s =>
    match s.userId with
    | none => (st, [])
    | some uid =>
      let therapyRoom := "therapy_" ++ sessionId
      (st, [Emitted.mk (.roomExcept therapyRoom sid)
              (.videoCallSignal uid signal ty)])

/-- A new connection (chatHandler.js line 8): the runtime creates a socket
with a fresh id, not yet authenticated, joined only to its own-id room. -/
def onConnect (st : ServerState) (sid : String) : ServerState :=
  match getSocket sid st.sockets with
  | some _ => st
  | none => { st with sockets := st.sockets ++ [Socket.mk sid none "" "" [sid]] }

/-- sendNotificationToUser (chatHandler.js lines 278-285): look the user up
in activeUsers; when present, emit a notification to its socket id and
return true, otherwise emit nothing and return false. -/
def sendNotificationToUser (st : ServerState) (userId : String)
    (payload : String) : List Emitted × Bool :=
  match assocGet userId st.activeUsers with
  | some u => ([Emitted.mk (.room u.socketId) (.notifyUser payload)], true)
  | none => ([], false)

/-- Inbound events, one per socket.on registration plus connection. -/
inductive Event where
  | connect (sid : String)
  | authenticate (sid : String) (res : Option AuthUser) (now : Nat)
  | joinGroup (sid groupId : String)
  | sendMessage (sid : String) (groupId message : Option String) (msgId : String) (now : Nat)
  | typing (sid groupId : String) (isTyping : Bool)
  | privateMessage (sid : String) (recipientId message : Option String) (msgId : String) (now : Nat)
  | joinTherapySession (sid sessionId : String)
  | videoCallSignal (sid sessionId signal ty : String)
  | disconnect (sid reason : String)
deriving DecidableEq, Repr

/-- One step of the server: dispatch an inbound event to its handler. -/
def step (st : ServerState) (e : Event) : ServerState × List Emitted :=
  match e with
  | .connect sid => (onConnect st sid, [])
  | .authenticate sid res now => onAuthenticate st sid res now
  | .joinGroup sid groupId => onJoinGroup st sid groupId
  | .sendMessage sid groupId message msgId now => onSendMessage st sid groupId message msgId now
  | .typing sid groupId isTyping => onTyping st sid groupId isTyping
  | .privateMessage sid recipientId message msgId now =>
      onPrivateMessage st sid recipientId message msgId now
  | .joinTherapySession sid sessionId => onJoinTherapySession st sid sessionId
  | .videoCallSignal sid sessionId signal ty => onVideoCallSignal st sid sessionId signal ty
  | .disconnect sid _ => onDisconnect st sid

/-- Run a sequence of events. -/
def run (st : ServerState) : List Event → ServerState
  | [] => st
  | e :: evs => run (step st e).1 evs

/-- The state at process start: empty maps, no socket. -/
def initState : ServerState :=
  ServerState.mk [] [] []

/- == Helper lemmas about the map and socket-list primitives == -/

theorem assocKeys_nil {α : Type} : assocKeys ([] : List (String × α)) = [] := rfl

theorem assocKeys_cons {α : Type} (p : String × α) (l : List (String × α)) :
    assocKeys (p :: l) = p.1 :: assocKeys l := rfl

theorem assocDel_cons {α : Type} (k : String) (p : String × α) (l : List (String × α)) :
    assocDel k (p :: l) = if p.1 = k then assocDel k l else p :: assocDel k l := by
  by_cases h : p.1 = k <;> simp [assocDel, h]

theorem assocGet_eq_none_iff {α : Type} {k : String} {l : List (String × α)} :
    assocGet k l = none ↔ k ∉ assocKeys l := by
  induction l with
  | nil => simp [assocGet, assocKeys_nil]
  | cons p l ih =>
    by_cases h : p.1 = k
    · simp [assocGet, h, assocKeys_cons]
    · have hku : k ≠ p.1 := fun hk => h hk.symm
      simp [assocGet, h, assocKeys_cons, ih, hku]

theorem mem_assocKeys_iff {α : Type} {k : String} {l : List (String × α)} :
    k ∈ assocKeys l ↔ ∃ v, assocGet k l = some v := by
  rcases hv : assocGet k l with _ | v
  · simp [assocGet_eq_none_iff.mp hv]
  · have : ¬ assocGet k l = none := by simp [hv]
    rw [assocGet_eq_none_iff] at this
    simp [not_not.mp this, hv]

theorem assocGet_set_self {α : Type} {k : String} (v : α) (l : List (String × α)) :
    assocGet k (assocSet k v l) = some v := by
  induction l with
  | nil => simp [assocSet, assocGet]
  | cons p l ih =>
    by_cases h : p.1 = k <;> simp [assocSet, assocGet, h, ih]

theorem mem_assocKeys_set {α : Type} {u k : String} (v : α) (l : List (String × α)) :
    u ∈ assocKeys (assocSet k v l) ↔ u = k ∨ u ∈ assocKeys l := by
  induction l with
  | nil => simp [assocSet, assocKeys_nil, assocKeys_cons]
  | cons p l ih =>
    by_cases h : p.1 = k
    · subst h
      simp [assocSet, assocKeys_cons]
    · simp [assocSet, h, assocKeys_cons, ih]
      tauto

theorem mem_assocKeys_del {α : Type} {u k : String} (l : List (String × α)) :
    u ∈ assocKeys (assocDel k l) ↔ u ∈ assocKeys l ∧ u ≠ k := by
  induction l with
  | nil => simp [assocDel, assocKeys_nil]
  | cons p l ih =>
    rw [assocDel_cons]
    by_cases h : p.1 = k
    · rw [if_pos h, ih, assocKeys_cons, h]
      simp only [List.mem_cons]
      constructor
      · rintro ⟨hmem, hne⟩
        exact ⟨Or.inr hmem, hne⟩
      · rintro ⟨rfl | hmem, hne⟩
        · exact absurd rfl hne
        · exact ⟨hmem, hne⟩
    · rw [if_neg h, assocKeys_cons, assocKeys_cons]
      simp only [List.mem_cons, ih]
      constructor
      · rintro (rfl | ⟨hmem, hne⟩)
        · exact ⟨Or.inl rfl, fun hk => h (hk ▸ rfl)⟩
        · exact ⟨Or.inr hmem, hne⟩
      · rintro ⟨rfl | hmem, hne⟩
        · exact Or.inl rfl
        · exact Or.inr ⟨hmem, hne⟩

theorem assocGet_del_self {α : Type} {k : String} (l : List (String × α)) :
    assocGet k (assocDel k l) = none := by
  rw [assocGet_eq_none_iff, mem_assocKeys_del]
  simp

theorem nodup_assocKeys_set {α : Type} {k : String} (v : α) {l : List (String × α)}
    (h : (assocKeys l).Nodup) : (assocKeys (assocSet k v l)).Nodup := by
  induction l with
  | nil => simp [assocSet, assocKeys_nil, assocKeys_cons]
  | cons p l ih =>
    rw [assocKeys_cons, List.nodup_cons] at h
    by_cases hk : p.1 = k
    · subst hk
      rw [show assocSet p.1 v (p :: l) = (p.1, v) :: l from by simp [assocSet]]
      rw [assocKeys_cons, List.nodup_cons]
      exact ⟨h.1, h.2⟩
    · rw [show assocSet k v (p :: l) = p :: assocSet k v l from by simp [assocSet, hk]]
      rw [assocKeys_cons, List.nodup_cons]
      refine ⟨fun hmem => ?_, ih h.2⟩
      rw [mem_assocKeys_set] at hmem
      rcases hmem with hp | hmem
      · exact hk hp
      · exact h.1 hmem

theorem jsFalsy_some_false {x : String} (h : x ≠ "") : jsFalsy (some x) = false := by
  simp [jsFalsy, h]

theorem getSocket_mem {sid : String} {l : List Socket} {s : Socket}
    (h : getSocket sid l = some s) : s ∈ l :=
  List.mem_of_find?_eq_some h

theorem getSocket_sid {sid : String} {l : List Socket} {s : Socket}
    (h : getSocket sid l = some s) : s.sid = sid := by
  have := List.find?_some h
  simpa using this

theorem getSocket_update {sid : String} (f : Socket → Socket) (l : List Socket)
    (hf : ∀ s, (f s).sid = s.sid) :
    getSocket sid (updateSocket sid f l) = (getSocket sid l).map f := by
  induction l with
  | nil => rfl
  | cons a l ih =>
    by_cases h : a.sid = sid
    · simp [updateSocket, getSocket, List.find?, h, hf] at *
    · simp [updateSocket, getSocket, List.find?, h] at *
      exact ih

theorem mem_updateSocket {sid : String} {f : Socket → Socket} {l : List Socket} {t : Socket}
    (h : t ∈ updateSocket sid f l) :
    ∃ s ∈ l, t = if s.sid = sid then f s else s := by
  rcases List.mem_map.mp h with ⟨s, hs, heq⟩
  exact ⟨s, hs, heq.symm⟩

theorem mem_removeSocket {sid : String} {l : List Socket} {t : Socket} :
    t ∈ removeSocket sid l ↔ t ∈ l ∧ t.sid ≠ sid := by
  simp [removeSocket]

theorem mem_leaveRooms {toLeave rooms : List String} {r : String} :
    r ∈ leaveRooms toLeave rooms ↔ r ∈ rooms ∧ r ∉ toLeave := by
  induction toLeave generalizing rooms with
  | nil => simp [leaveRooms]
  | cons a toLeave ih =>
    simp [leaveRooms] at ih ⊢
    rw [ih]
    simp [leaveRoom]
    tauto

theorem mem_joinRoom {r g : String} {rooms : List String} :
    r ∈ joinRoom g rooms ↔ r ∈ rooms ∨ r = g := by
  by_cases h : g ∈ rooms
  · simp [joinRoom, h]
    intro hr
    subst hr
    exact h
  · simp [joinRoom, h]

/- == Reachability invariant machinery == -/

/-- User ids currently assigned to some live socket. -/
def assignedIds (st : ServerState) : List String :=
  st.sockets.filterMap Socket.userId

theorem mem_assignedIds {st : ServerState} {u : String} :
    u ∈ assignedIds st ↔ ∃ s ∈ st.sockets, s.userId = some u := by
  simp [assignedIds, List.mem_filterMap]

/-- The inductive invariant: every user id in userRooms is registered in
activeUsers, every user id assigned to a live socket is registered in
activeUsers, and no user id is assigned to two distinct live sockets. -/
def GoodState (st : ServerState) : Prop :=
  (∀ u ∈ assocKeys st.userRooms, u ∈ assocKeys st.activeUsers) ∧
  (∀ s ∈ st.sockets, ∀ u, s.userId = some u → u ∈ assocKeys st.activeUsers) ∧
  (∀ s ∈ st.sockets, ∀ t ∈ st.sockets, ∀ u,
     s.userId = some u → t.userId = some u → s.sid = t.sid)

theorem good_of_socketMap {A : List (String × ActiveUserEntry)} {l l' : List Socket}
    (hmap : ∀ t ∈ l', ∃ t0 ∈ l, t.userId = t0.userId ∧ t.sid = t0.sid)
    (h2 : ∀ s ∈ l, ∀ u, s.userId = some u → u ∈ assocKeys A)
    (h3 : ∀ s ∈ l, ∀ t ∈ l, ∀ u, s.userId = some u → t.userId = some u → s.sid = t.sid) :
    (∀ s ∈ l', ∀ u, s.userId = some u → u ∈ assocKeys A) ∧
    (∀ s ∈ l', ∀ t ∈ l', ∀ u, s.userId = some u → t.userId = some u → s.sid = t.sid) := by
  constructor
  · intro t ht u htu
    obtain ⟨t0, ht0, hu0, _⟩ := hmap t ht
    exact h2 t0 ht0 u (hu0 ▸ htu)
  · intro t ht t' ht' u htu ht'u
    obtain ⟨t0, ht0, hu0, hs0⟩ := hmap t ht
    obtain ⟨t0', ht0', hu0', hs0'⟩ := hmap t' ht'
    rw [hs0, hs0']
    exact h3 t0 ht0 t0' ht0' u (hu0 ▸ htu) (hu0' ▸ ht'u)

theorem updateSocket_socketMap {sid : String} {f : Socket → Socket} {l : List Socket}
    (hf : ∀ s, (f s).userId = s.userId ∧ (f s).sid = s.sid) :
    ∀ t ∈ updateSocket sid f l, ∃ t0 ∈ l, t.userId = t0.userId ∧ t.sid = t0.sid := by
  intro t ht
  obtain ⟨t0, ht0, rfl⟩ := mem_updateSocket ht
  by_cases h0 : t0.sid = sid
  · exact ⟨t0, ht0, by simp [h0, (hf t0).1, (hf t0).2]⟩
  · exact ⟨t0, ht0, by simp [h0]⟩

theorem removeSocket_socketMap {sid : String} {l : List Socket} :
    ∀ t ∈ removeSocket sid l, ∃ t0 ∈ l, t.userId = t0.userId ∧ t.sid = t0.sid := by
  intro t ht
  exact ⟨t, (mem_removeSocket.mp ht).1, rfl, rfl⟩

theorem assigned_subset_of_socketMap (st st' : ServerState)
    (hmap : ∀ t ∈ st'.sockets, ∃ t0 ∈ st.sockets, t.userId = t0.userId ∧ t.sid = t0.sid) :
    ∀ u ∈ assignedIds st', u ∈ assignedIds st := by
  intro u hu
  rw [mem_assignedIds] at hu ⊢
  obtain ⟨t, ht, htu⟩ := hu
  obtain ⟨t0, ht0, hequ, _⟩ := hmap t ht
  exact ⟨t0, ht0, hequ ▸ htu⟩

theorem onDisconnect_good {st : ServerState} (sid : String) (hg : GoodState st) :
    GoodState (onDisconnect st sid).1 := by
  obtain ⟨h1, h2, h3⟩ := hg
  rcases hs : getSocket sid st.sockets with _ | s
  · simpa [onDisconnect, hs] using ⟨h1, h2, h3⟩
  · have hsmem := getSocket_mem hs
    have hssid := getSocket_sid hs
    rcases hu : s.userId with _ | uid
    · simp only [onDisconnect, hs, hu]
      refine ⟨h1, ?_⟩
      exact good_of_socketMap removeSocket_socketMap h2 h3
    · simp only [onDisconnect, hs, hu]
      refine ⟨?_, ?_, (good_of_socketMap removeSocket_socketMap h2 h3).2⟩
      · intro u hu'
        rw [mem_assocKeys_del] at hu' ⊢
        exact ⟨h1 u hu'.1, hu'.2⟩
      · intro t ht u htu
        rw [mem_removeSocket] at ht
        rw [mem_assocKeys_del]
        refine ⟨h2 t ht.1 u htu, ?_⟩
        rintro rfl
        have : t.sid = s.sid := h3 t ht.1 s hsmem u htu hu
        exact ht.2 (this.trans hssid)

theorem assigned_onDisconnect {st : ServerState} {sid u : String}
    (h : u ∈ assignedIds (onDisconnect st sid).1) : u ∈ assignedIds st := by
  rcases hs : getSocket sid st.sockets with _ | s
  · simpa [onDisconnect, hs] using h
  · rcases hu : s.userId with _ | uid
    · refine assigned_subset_of_socketMap st _ ?_ u (by simpa [onDisconnect, hs, hu] using h)
      exact removeSocket_socketMap
    · refine assigned_subset_of_socketMap st _ ?_ u (by simpa [onDisconnect, hs, hu] using h)
      exact removeSocket_socketMap

theorem onConnect_good {st : ServerState} (sid : String) (hg : GoodState st) :
    GoodState (onConnect st sid) := by
  obtain ⟨h1, h2, h3⟩ := hg
  rcases hs : getSocket sid st.sockets with _ | s
  · simp only [onConnect, hs]
    refine ⟨h1, ?_, ?_⟩
    · intro t ht u htu
      rcases List.mem_append.mp ht with ht | ht
      · exact h2 t ht u htu
      · simp at ht
        subst ht
        simp at htu
    · intro t ht t' ht' u htu ht'u
      rcases List.mem_append.mp ht with ht | ht <;>
        rcases List.mem_append.mp ht' with ht' | ht'
      · exact h3 t ht t' ht' u htu ht'u
      · simp at ht'; subst ht'; simp at ht'u
      · simp at ht; subst ht; simp at htu
      · simp at ht; subst ht; simp at htu
  · simpa [onConnect, hs] using ⟨h1, h2, h3⟩

theorem assigned_onConnect {st : ServerState} {sid u : String}
    (h : u ∈ assignedIds (onConnect st sid)) : u ∈ assignedIds st := by
  rcases hs : getSocket sid st.sockets with _ | s
  · rw [mem_assignedIds] at h ⊢
    obtain ⟨t, ht, htu⟩ := h
    simp only [onConnect, hs] at ht
    rcases List.mem_append.mp ht with ht | ht
    · exact ⟨t, ht, htu⟩
    · simp at ht
      subst ht
      simp at htu
  · simpa [onConnect, hs] using h

theorem onAuthenticate_good {st : ServerState} {sid : String} {res : Option AuthUser}
    {now : Nat} (hg : GoodState st)
    (hfresh : ∀ au, res = some au → au.isActive = true → au.id ∉ assignedIds st) :
    GoodState (onAuthenticate st sid res now).1 := by
  rcases hs : getSocket sid st.sockets with _ | s
  · simpa [onAuthenticate, hs] using hg
  · rcases res with _ | au
    · simpa [onAuthenticate, hs] using onDisconnect_good sid hg
    · by_cases ha : au.isActive
      · obtain ⟨h1, h2, h3⟩ := hg
        have hfr : au.id ∉ assignedIds st := hfresh au rfl ha
        simp only [onAuthenticate, hs, ha, if_pos]
        refine ⟨?_, ?_, ?_⟩
        · intro u hu
          rw [mem_assocKeys_set]
          exact Or.inr (h1 u hu)
        · intro t ht u htu
          rw [mem_assocKeys_set]
          obtain ⟨t0, ht0, rfl⟩ := mem_updateSocket ht
          by_cases h0 : t0.sid = sid
          · simp only [h0, if_pos] at htu
            simp at htu
            exact Or.inl htu.symm
          · simp only [h0, if_neg, ite_false] at htu
            exact Or.inr (h2 t0 ht0 u htu)
        · intro t ht t' ht' u htu ht'u
          obtain ⟨t0, ht0, rfl⟩ := mem_updateSocket ht
          obtain ⟨t0', ht0', rfl⟩ := mem_updateSocket ht'
          by_cases h0 : t0.sid = sid <;> by_cases h0' : t0'.sid = sid
          · simp [h0, h0']
          · exfalso
            simp only [h0, if_pos] at htu
            simp at htu
            simp only [h0', ite_false] at ht'u
            exact hfr (mem_assignedIds.mpr ⟨t0', ht0', htu ▸ ht'u⟩)
          · exfalso
            simp only [h0', if_pos] at ht'u
            simp at ht'u
            simp only [h0, ite_false] at htu
            exact hfr (mem_assignedIds.mpr ⟨t0, ht0, ht'u ▸ htu⟩)
          · simp only [h0, h0', ite_false] at htu ht'u ⊢
            exact h3 t0 ht0 t0' ht0' u htu ht'u
      · simpa [onAuthenticate, hs, ha] using onDisconnect_good sid hg

theorem assigned_onAuthenticate {st : ServerState} {sid : String} {res : Option AuthUser}
    {now : Nat} {u : String}
    (h : u ∈ assignedIds (onAuthenticate st sid res now).1) :
    u ∈ assignedIds st ∨ ∃ au, res = some au ∧ au.isActive = true ∧ u = au.id := by
  rcases hs : getSocket sid st.sockets with _ | s
  · exact Or.inl (by simpa [onAuthenticate, hs] using h)
  · rcases res with _ | au
    · exact Or.inl (assigned_onDisconnect (by simpa [onAuthenticate, hs] using h))
    · by_cases ha : au.isActive
      · simp only [onAuthenticate, hs, ha, if_pos] at h
        rw [mem_assignedIds] at h
        obtain ⟨t, ht, htu⟩ := h
        obtain ⟨t0, ht0, rfl⟩ := mem_updateSocket ht
        by_cases h0 : t0.sid = sid
        · simp only [h0, if_pos] at htu
          simp at htu
          exact Or.inr ⟨au, rfl, ha, htu.symm⟩
        · simp only [h0, ite_false] at htu
          exact Or.inl (mem_assignedIds.mpr ⟨t0, ht0, htu⟩)
      · exact Or.inl (assigned_onDisconnect (by simpa [onAuthenticate, hs, ha] using h))

theorem onJoinGroup_good {st : ServerState} {sid g : String} (hg : GoodState st) :
    GoodState (onJoinGroup st sid g).1 := by
  rcases hs : getSocket sid st.sockets with _ | s
  · simpa [onJoinGroup, hs] using hg
  · rcases hu : s.userId with _ | uid
    · simpa [onJoinGroup, hs, hu] using hg
    · obtain ⟨h1, h2, h3⟩ := hg
      have hsmem := getSocket_mem hs
      have huid : uid ∈ assocKeys st.activeUsers := h2 s hsmem uid hu
      simp only [onJoinGroup, hs, hu]
      have hmap : ∀ t ∈ updateSocket sid (fun s0 => { s0 with rooms := joinRoom g (leaveRooms ((assocGet uid st.userRooms).getD []) s.rooms) }) st.sockets, ∃ t0 ∈ st.sockets, t.userId = t0.userId ∧ t.sid = t0.sid :=
        updateSocket_socketMap (fun s0 => ⟨rfl, rfl⟩)
      refine ⟨?_, (good_of_socketMap hmap h2 h3).1, (good_of_socketMap hmap h2 h3).2⟩
      intro u hu'
      rw [mem_assocKeys_set] at hu'
      rcases hu' with rfl | hu'
      · exact huid
      · exact h1 u hu'

theorem assigned_onJoinGroup {st : ServerState} {sid g u : String}
    (h : u ∈ assignedIds (onJoinGroup st sid g).1) : u ∈ assignedIds st := by
  rcases hs : getSocket sid st.sockets with _ | s
  · simpa [onJoinGroup, hs] using h
  · rcases hu : s.userId with _ | uid
    · simpa [onJoinGroup, hs, hu] using h
    · refine assigned_subset_of_socketMap st _ ?_ u
        (by simpa [onJoinGroup, hs, hu] using h)
      exact updateSocket_socketMap (fun s0 => ⟨rfl, rfl⟩)

theorem onJoinTherapySession_good {st : ServerState} {sid sess : String}
    (hg : GoodState st) : GoodState (onJoinTherapySession st sid sess).1 := by
  rcases hs : getSocket sid st.sockets with _ | s
  · simpa [onJoinTherapySession, hs] using hg
  · rcases hu : s.userId with _ | uid
    · simpa [onJoinTherapySession, hs, hu] using hg
    · obtain ⟨h1, h2, h3⟩ := hg
      simp only [onJoinTherapySession, hs, hu]
      have hmap : ∀ t ∈ updateSocket sid
          (fun s0 => { s0 with rooms := joinRoom ("therapy_" ++ sess) s0.rooms }) st.sockets,
          ∃ t0 ∈ st.sockets, t.userId = t0.userId ∧ t.sid = t0.sid :=
        updateSocket_socketMap (fun s0 => ⟨rfl, rfl⟩)
      exact ⟨h1, (good_of_socketMap hmap h2 h3).1, (good_of_socketMap hmap h2 h3).2⟩

theorem assigned_onJoinTherapySession {st : ServerState} {sid sess u : String}
    (h : u ∈ assignedIds (onJoinTherapySession st sid sess).1) : u ∈ assignedIds st := by
  rcases hs : getSocket sid st.sockets with _ | s
  · simpa [onJoinTherapySession, hs] using h
  · rcases hu : s.userId with _ | uid
    · simpa [onJoinTherapySession, hs, hu] using h
    · refine assigned_subset_of_socketMap st _ ?_ u
        (by simpa [onJoinTherapySession, hs, hu] using h)
      exact updateSocket_socketMap (fun s0 => ⟨rfl, rfl⟩)

theorem onSendMessage_state (st : ServerState) (sid : String)
    (groupId message : Option String) (msgId : String) (now : Nat) :
    (onSendMessage st sid groupId message msgId now).1 = st := by
  rcases hs : getSocket sid st.sockets with _ | s
  · simp [onSendMessage, hs]
  · rcases hu : s.userId with _ | uid
    · simp [onSendMessage, hs, hu]
    · by_cases h : (jsFalsy groupId || jsFalsy message || jsFalsy (message.map jsTrim)) = true
      · simp [onSendMessage, hs, hu, h]
      · simp [onSendMessage, hs, hu, h]

theorem onTyping_state (st : ServerState) (sid groupId : String) (isTyping : Bool) :
    (onTyping st sid groupId isTyping).1 = st := by
  rcases hs : getSocket sid st.sockets with _ | s
  · simp [onTyping, hs]
  · rcases hu : s.userId with _ | uid <;> simp [onTyping, hs, hu]

theorem onPrivateMessage_state (st : ServerState) (sid : String)
    (recipientId message : Option String) (msgId : String) (now : Nat) :
    (onPrivateMessage st sid recipientId message msgId now).1 = st := by
  rcases hs : getSocket sid st.sockets with _ | s
  · simp [onPrivateMessage, hs]
  · rcases hu : s.userId with _ | uid
    · simp [onPrivateMessage, hs, hu]
    · by_cases h : (jsFalsy recipientId || jsFalsy message || jsFalsy (message.map jsTrim)) = true
      · simp [onPrivateMessage, hs, hu, h]
      · rcases hr : assocGet (recipientId.getD "") st.activeUsers with _ | r <;>
          simp [onPrivateMessage, hs, hu, h, hr]

theorem onVideoCallSignal_state (st : ServerState) (sid sessionId signal ty : String) :
    (onVideoCallSignal st sid sessionId signal ty).1 = st := by
  rcases hs : getSocket sid st.sockets with _ | s
  · simp [onVideoCallSignal, hs]
  · rcases hu : s.userId with _ | uid <;> simp [onVideoCallSignal, hs, hu]

/-- The user id successfully authenticated by an event, if any. -/
def eventAuthId : Event → Option String
  | Event.authenticate _ (some au) _ => if au.isActive then some au.id else none
  | _ => none

/-- The user ids successfully authenticated along a trace. -/
def authIds (evs : List Event) : List String :=
  evs.filterMap eventAuthId

theorem authIds_cons (e : Event) (evs : List Event) :
    authIds (e :: evs) = match eventAuthId e with
      | some a => a :: authIds evs
      | none => authIds evs := by
  simp only [authIds, List.filterMap_cons]
  rcases eventAuthId e with _ | a <;> rfl

/-- Any interleaving of events in which no user id completes successful
authentication twice preserves the invariant. -/
theorem run_good (evs : List Event) : ∀ st : ServerState, GoodState st →
    (authIds evs).Nodup →
    (∀ u ∈ assignedIds st, u ∉ authIds evs) →
    GoodState (run st evs) := by
  induction evs with
  | nil => intro st hg _ _; exact hg
  | cons e evs ih =>
    intro st hg hnd hdisj
    have hsub : ∀ u, u ∈ authIds evs → u ∈ authIds (e :: evs) := by
      intro u hu
      rw [authIds_cons]
      rcases eventAuthId e with _ | a
      · exact hu
      · exact List.mem_cons_of_mem a hu
    have hnd' : (authIds evs).Nodup := by
      rw [authIds_cons] at hnd
      rcases ha : eventAuthId e with _ | a
      · simp only [ha] at hnd
        exact hnd
      · simp only [ha] at hnd
        exact (List.nodup_cons.mp hnd).2
    have hgood : GoodState (step st e).1 := by
      cases e with
      | connect sid => exact onConnect_good sid hg
      | authenticate sid res now =>
        refine onAuthenticate_good hg ?_
        intro au hres hact hmem
        have : au.id ∈ authIds (Event.authenticate sid res now :: evs) := by
          rw [authIds_cons]
          subst hres
          simp [eventAuthId, hact]
        exact hdisj au.id hmem this
      | joinGroup sid g => exact onJoinGroup_good hg
      | sendMessage sid gid msg mi t =>
        simpa [step, onSendMessage_state] using hg
      | typing sid g b => simpa [step, onTyping_state] using hg
      | privateMessage sid rid msg mi t =>
        simpa [step, onPrivateMessage_state] using hg
      | joinTherapySession sid sess => exact onJoinTherapySession_good hg
      | videoCallSignal sid sess sig ty =>
        simpa [step, onVideoCallSignal_state] using hg
      | disconnect sid r => exact onDisconnect_good sid hg
    have hdisj' : ∀ u ∈ assignedIds (step st e).1, u ∉ authIds evs := by
      intro u hu
      cases e with
      | connect sid => exact fun hx => hdisj u (assigned_onConnect hu) (hsub u hx)
      | authenticate sid res now =>
        rcases assigned_onAuthenticate hu with hu' | ⟨au, hres, hact, rfl⟩
        · exact fun hx => hdisj u hu' (hsub u hx)
        · rw [authIds_cons] at hnd
          subst hres
          simp only [eventAuthId, hact, if_pos] at hnd
          exact (List.nodup_cons.mp hnd).1
      | joinGroup sid g => exact fun hx => hdisj u (assigned_onJoinGroup hu) (hsub u hx)
      | sendMessage sid gid msg mi t =>
        rw [show (step st (Event.sendMessage sid gid msg mi t)).1 = st from
          onSendMessage_state st sid gid msg mi t] at hu
        exact fun hx => hdisj u hu (hsub u hx)
      | typing sid g b =>
        rw [show (step st (Event.typing sid g b)).1 = st from onTyping_state st sid g b] at hu
        exact fun hx => hdisj u hu (hsub u hx)
      | privateMessage sid rid msg mi t =>
        rw [show (step st (Event.privateMessage sid rid msg mi t)).1 = st from
          onPrivateMessage_state st sid rid msg mi t] at hu
        exact fun hx => hdisj u hu (hsub u hx)
      | joinTherapySession sid sess =>
        exact fun hx => hdisj u (assigned_onJoinTherapySession hu) (hsub u hx)
      | videoCallSignal sid sess sig ty =>
        rw [show (step st (Event.videoCallSignal sid sess sig ty)).1 = st from
          onVideoCallSignal_state st sid sess sig ty] at hu
        exact fun hx => hdisj u (by exact hu) (hsub u hx)
      | disconnect sid r => exact fun hx => hdisj u (assigned_onDisconnect hu) (hsub u hx)
    exact ih (step st e).1 hgood hnd' hdisj'

theorem initState_good : GoodState initState := by
  refine ⟨?_, ?_, ?_⟩
  · intro u hu
    simp [initState, assocKeys_nil] at hu
  · intro s hs
    simp [initState] at hs
  · intro s hs
    simp [initState] at hs

/- == Computation lemmas for single handlers == -/

theorem onJoinGroup_state {st : ServerState} {sid g u : String} {s : Socket}
    (hs : getSocket sid st.sockets = some s) (hu : s.userId = some u) :
    (onJoinGroup st sid g).1.userRooms = assocSet u [g] st.userRooms ∧
    (onJoinGroup st sid g).1.activeUsers = st.activeUsers ∧
    getSocket sid (onJoinGroup st sid g).1.sockets
      = some { s with rooms := joinRoom g (leaveRooms ((assocGet u st.userRooms).getD []) s.rooms) } := by
  refine ⟨?_, ?_, ?_⟩
  · simp [onJoinGroup, hs, hu]
  · simp [onJoinGroup, hs, hu]
  · simp only [onJoinGroup, hs, hu]
    rw [getSocket_update (fun s0 => { s0 with rooms := joinRoom g (leaveRooms ((assocGet u st.userRooms).getD []) s.rooms) }) st.sockets (fun s0 => rfl), hs]
    simp [hu]

/-- Repeated joinGroup calls from the same connection. -/
def runJoins (st : ServerState) (sid : String) (gs : List String) : ServerState :=
  gs.foldl (fun acc g => (onJoinGroup acc sid g).1) st

theorem runJoins_nil (st : ServerState) (sid : String) : runJoins st sid [] = st := rfl

theorem runJoins_cons (st : ServerState) (sid g : String) (gs : List String) :
    runJoins st sid (g :: gs) = runJoins (onJoinGroup st sid g).1 sid gs := rfl

theorem runJoins_inv (sid u : String) (gs : List String) :
    ∀ (st : ServerState) (g0 : String) (s : Socket),
    getSocket sid st.sockets = some s → s.userId = some u →
    assocGet u st.userRooms = some [g0] →
    (∀ r ∈ s.rooms, r = sid ∨ r = g0) →
    ∃ s', getSocket sid (runJoins st sid gs).sockets = some s' ∧
      s'.userId = some u ∧
      assocGet u (runJoins st sid gs).userRooms = some [gs.getLastD g0] ∧
      (∀ r ∈ s'.rooms, r = sid ∨ r = gs.getLastD g0) := by
  induction gs with
  | nil =>
    intro st g0 s hs hu hr hsub
    exact ⟨s, by simpa [runJoins_nil] using hs, hu, by simpa [runJoins_nil] using hr, hsub⟩
  | cons g gs ih =>
    intro st g0 s hs hu hr hsub
    obtain ⟨hur, _, hsock⟩ := onJoinGroup_state (g := g) hs hu
    rw [runJoins_cons]
    have hsub' : ∀ r ∈ joinRoom g (leaveRooms ((assocGet u st.userRooms).getD []) s.rooms), r = sid ∨ r = g := by
      intro r hmem
      rcases mem_joinRoom.mp hmem with hmem | rfl
      · rw [hr] at hmem
        obtain ⟨hmem, hnot⟩ := mem_leaveRooms.mp hmem
        rcases hsub r hmem with rfl | rfl
        · exact Or.inl rfl
        · exact absurd (by simp) hnot
      · exact Or.inr rfl
    have hget : assocGet u (onJoinGroup st sid g).1.userRooms = some [g] := by
      rw [hur, assocGet_set_self]
    have hlast : (g :: gs).getLastD g0 = gs.getLastD g := by
      cases gs with
      | nil => simp
      | cons a l =>
        rcases hx : (a :: l).getLast? with _ | x
        · simp at hx
        · simp [hx]
    rw [hlast]
    exact ih (onJoinGroup st sid g).1 g _ hsock hu hget hsub'

theorem filter_ne_count_one {l : List String} {a sid : String}
    (hnd : l.Nodup) (ha : a ∈ l) (hne : a ≠ sid) :
    (l.filter (fun r => r ≠ sid)).count a = 1 := by
  apply List.count_eq_one_of_mem (hnd.filter _)
  rw [List.mem_filter]
  exact ⟨ha, by simp [hne]⟩

/-- C1: processing a disconnect for a connection authenticated as user `u`
removes `u` from activeUsers, removes its userRooms entry, and for every
room the socket was a member of (other than its own-id room) emits exactly
one userLeft event carrying the user's id, name and role, delivered to
precisely the sockets that remain in that room. -/
theorem disconnect_cleanup_spec (st : ServerState) (sid u : String) (s : Socket)
    (hs : getSocket sid st.sockets = some s) (hu : s.userId = some u)
    (hnd : s.rooms.Nodup) :
    (u ∉ assocKeys (onDisconnect st sid).1.activeUsers) ∧
    (u ∉ assocKeys (onDisconnect st sid).1.userRooms) ∧
    (∀ room ∈ s.rooms, room ≠ sid →
      ((onDisconnect st sid).2.count
          (Emitted.mk (Target.roomExcept room sid) (OutEvent.userLeft u s.userName s.userRole)) = 1 ∧
       (∀ t ∈ (onDisconnect st sid).1.sockets,
          receivesEmit (Emitted.mk (Target.roomExcept room sid)
            (OutEvent.userLeft u s.userName s.userRole)) t = true ↔ room ∈ t.rooms))) := by
  simp only [onDisconnect, hs, hu]
  refine ⟨?_, ?_, ?_⟩
  · rw [mem_assocKeys_del]
    simp
  · rw [mem_assocKeys_del]
    simp
  · intro room hroom hne
    constructor
    · have hinj : Function.Injective
          (fun r => Emitted.mk (Target.roomExcept r sid) (OutEvent.userLeft u s.userName s.userRole)) := by
        intro a b hab
        simpa using hab
      have := List.count_map_of_injective (x := room)
        (l := s.rooms.filter (fun r => r ≠ sid))
        (f := fun r => Emitted.mk (Target.roomExcept r sid) (OutEvent.userLeft u s.userName s.userRole)) hinj
      rw [this]
      exact filter_ne_count_one hnd hroom hne
    · intro t ht
      rw [mem_removeSocket] at ht
      simp [receivesEmit, ht.2]

/-- C1 witness: a concrete disconnect of an authenticated socket in one
shared room, with one other member remaining. -/
theorem disconnect_cleanup_spec_witness :
    ("U" ∉ assocKeys (onDisconnect (ServerState.mk [("U", ActiveUserEntry.mk "c1" "Alice" "patient" 0), ("V", ActiveUserEntry.mk "c2" "Bob" "caregiver" 0)] [("U", ["g"]), ("V", ["g"])] [Socket.mk "c1" (some "U") "Alice" "patient" ["c1", "g"], Socket.mk "c2" (some "V") "Bob" "caregiver" ["c2", "g"]]) "c1").1.activeUsers) ∧
    ("U" ∉ assocKeys (onDisconnect (ServerState.mk [("U", ActiveUserEntry.mk "c1" "Alice" "patient" 0), ("V", ActiveUserEntry.mk "c2" "Bob" "caregiver" 0)] [("U", ["g"]), ("V", ["g"])] [Socket.mk "c1" (some "U") "Alice" "patient" ["c1", "g"], Socket.mk "c2" (some "V") "Bob" "caregiver" ["c2", "g"]]) "c1").1.userRooms) ∧
    (∀ room ∈ (Socket.mk "c1" (some "U") "Alice" "patient" ["c1", "g"]).rooms, room ≠ "c1" →
      ((onDisconnect (ServerState.mk [("U", ActiveUserEntry.mk "c1" "Alice" "patient" 0), ("V", ActiveUserEntry.mk "c2" "Bob" "caregiver" 0)] [("U", ["g"]), ("V", ["g"])] [Socket.mk "c1" (some "U") "Alice" "patient" ["c1", "g"], Socket.mk "c2" (some "V") "Bob" "caregiver" ["c2", "g"]]) "c1").2.count
          (Emitted.mk (Target.roomExcept room "c1") (OutEvent.userLeft "U" "Alice" "patient")) = 1 ∧
       (∀ t ∈ (onDisconnect (ServerState.mk [("U", ActiveUserEntry.mk "c1" "Alice" "patient" 0), ("V", ActiveUserEntry.mk "c2" "Bob" "caregiver" 0)] [("U", ["g"]), ("V", ["g"])] [Socket.mk "c1" (some "U") "Alice" "patient" ["c1", "g"], Socket.mk "c2" (some "V") "Bob" "caregiver" ["c2", "g"]]) "c1").1.sockets,
          receivesEmit (Emitted.mk (Target.roomExcept room "c1")
            (OutEvent.userLeft "U" "Alice" "patient")) t = true ↔ room ∈ t.rooms))) :=
  disconnect_cleanup_spec _ "c1" "U" (Socket.mk "c1" (some "U") "Alice" "patient" ["c1", "g"])
    (by decide) (by decide) (by decide)

/-- C4: for every sequence of joinGroup calls issued by one authenticated
connection starting from a fresh post-authentication socket (member only of
its own-id room), the user's Room Membership entry afterwards is the
singleton holding the most recently joined room, and the connection is not
a member of any other previously joined room. Instantiating the theorem at
every prefix of the sequence yields the property at every intermediate
point after the first join. -/
theorem joinGroup_single_room (st : ServerState) (sid u g1 : String)
    (gs : List String) (s : Socket)
    (hs : getSocket sid st.sockets = some s) (hu : s.userId = some u)
    (hrooms : s.rooms = [sid])
    (hg1 : g1 ≠ sid) (hgs : ∀ x ∈ gs, x ≠ sid) :
    assocGet u (runJoins st sid (g1 :: gs)).userRooms = some [gs.getLastD g1] ∧
    ∃ s', getSocket sid (runJoins st sid (g1 :: gs)).sockets = some s' ∧
      ∀ x ∈ g1 :: gs, x ≠ gs.getLastD g1 → x ∉ s'.rooms := by
  obtain ⟨hur, _, hsock⟩ := onJoinGroup_state (g := g1) hs hu
  rw [runJoins_cons]
  have hget : assocGet u (onJoinGroup st sid g1).1.userRooms = some [g1] := by
    rw [hur]
    exact assocGet_set_self _ _
  have hsub1 : ∀ r ∈ joinRoom g1 (leaveRooms ((assocGet u st.userRooms).getD []) s.rooms), r = sid ∨ r = g1 := by
    intro r hmem
    rcases mem_joinRoom.mp hmem with hmem | rfl
    · obtain ⟨hmem, _⟩ := mem_leaveRooms.mp hmem
      rw [hrooms] at hmem
      simp at hmem
      exact Or.inl hmem
    · exact Or.inr rfl
  obtain ⟨s', hgs', hu', hlook, hsub'⟩ :=
    runJoins_inv sid u gs (onJoinGroup st sid g1).1 g1 _ hsock hu hget hsub1
  refine ⟨hlook, s', hgs', ?_⟩
  intro x hx hne hxmem
  rcases hsub' x hxmem with rfl | rfl
  · rcases List.mem_cons.mp hx with h1 | h2
    · exact hg1 h1.symm
    · exact hgs _ h2 rfl
  · exact hne rfl

/-- C4 witness: the user joins g1, g2, then g1 again; the membership entry
ends at [g1] and the socket is no longer in g2. -/
theorem joinGroup_single_room_witness :
    (assocGet "U" (runJoins (ServerState.mk [("U", ActiveUserEntry.mk "c1" "Alice" "patient" 0)] [] [Socket.mk "c1" (some "U") "Alice" "patient" ["c1"]]) "c1" ["g1", "g2", "g1"]).userRooms = some [["g2", "g1"].getLastD "g1"]) ∧
    (∃ s', getSocket "c1" (runJoins (ServerState.mk [("U", ActiveUserEntry.mk "c1" "Alice" "patient" 0)] [] [Socket.mk "c1" (some "U") "Alice" "patient" ["c1"]]) "c1" ["g1", "g2", "g1"]).sockets = some s' ∧
      ∀ x ∈ ["g1", "g2", "g1"], x ≠ ["g2", "g1"].getLastD "g1" → x ∉ s'.rooms) :=
  joinGroup_single_room (ServerState.mk [("U", ActiveUserEntry.mk "c1" "Alice" "patient" 0)] [] [Socket.mk "c1" (some "U") "Alice" "patient" ["c1"]]) "c1" "U" "g1" ["g2", "g1"]
    (Socket.mk "c1" (some "U") "Alice" "patient" ["c1"])
    (by decide) (by decide) (by decide) (by decide) (by decide)

/-- C2 (amended): the Connection Registry entry for a user is created on
successful authentication, a second authentication replaces the entry
without duplicating the key, and the disconnect of ANY connection
authenticated as that user deletes the entry - including a disconnect of an
earlier connection after a later connection re-created the entry. -/
theorem registry_entry_lifecycle (st : ServerState) (sid : String) (au : AuthUser)
    (now : Nat) (s : Socket)
    (hs : getSocket sid st.sockets = some s) (ha : au.isActive = true) :
    (assocGet au.id (onAuthenticate st sid (some au) now).1.activeUsers
        = some (ActiveUserEntry.mk sid au.name au.role now)) ∧
    ((assocKeys st.activeUsers).Nodup →
        (assocKeys (onAuthenticate st sid (some au) now).1.activeUsers).Nodup) ∧
    (∀ u, s.userId = some u → assocGet u (onDisconnect st sid).1.activeUsers = none) := by
  refine ⟨?_, ?_, ?_⟩
  · simp [onAuthenticate, hs, ha, assocGet_set_self]
  · intro hnd
    simp only [onAuthenticate, hs, ha, if_true]
    exact nodup_assocKeys_set _ hnd
  · intro u hu
    simp only [onDisconnect, hs, hu]
    exact assocGet_del_self _

/-- C2 witness: a concrete authentication creating the entry, keeping the
keys duplicate-free, and a disconnect removing it. -/
theorem registry_entry_lifecycle_witness :
    (assocGet "U" (onAuthenticate (ServerState.mk [("U", ActiveUserEntry.mk "c0" "Alice" "patient" 0)] [] [Socket.mk "c1" none "" "" ["c1"]]) "c1" (some (AuthUser.mk "U" "Alice" "patient" true)) 7).1.activeUsers = some (ActiveUserEntry.mk "c1" "Alice" "patient" 7)) ∧
    ((assocKeys (ServerState.mk [("U", ActiveUserEntry.mk "c0" "Alice" "patient" 0)] [] [Socket.mk "c1" none "" "" ["c1"]]).activeUsers).Nodup →
        (assocKeys (onAuthenticate (ServerState.mk [("U", ActiveUserEntry.mk "c0" "Alice" "patient" 0)] [] [Socket.mk "c1" none "" "" ["c1"]]) "c1" (some (AuthUser.mk "U" "Alice" "patient" true)) 7).1.activeUsers).Nodup) ∧
    (∀ u, (Socket.mk "c1" none "" "" ["c1"]).userId = some u →
        assocGet u (onDisconnect (ServerState.mk [("U", ActiveUserEntry.mk "c0" "Alice" "patient" 0)] [] [Socket.mk "c1" none "" "" ["c1"]]) "c1").1.activeUsers = none) :=
  registry_entry_lifecycle (ServerState.mk [("U", ActiveUserEntry.mk "c0" "Alice" "patient" 0)] [] [Socket.mk "c1" none "" "" ["c1"]]) "c1" (AuthUser.mk "U" "Alice" "patient" true) 7
    (Socket.mk "c1" none "" "" ["c1"]) (by decide) (by decide)

/-- C2 counterexample: user U authenticates on c1 and then on c2 (the
registry entry now belongs to c2); the disconnect of the earlier connection
c1 nevertheless deletes that entry. -/
theorem registry_stale_disconnect_counterexample :
    (assocGet "U" (run initState [Event.connect "c1", Event.authenticate "c1" (some (AuthUser.mk "U" "Alice" "patient" true)) 0, Event.connect "c2", Event.authenticate "c2" (some (AuthUser.mk "U" "Alice" "patient" true)) 1]).activeUsers = some (ActiveUserEntry.mk "c2" "Alice" "patient" 1)) ∧
    (assocGet "U" (run initState [Event.connect "c1", Event.authenticate "c1" (some (AuthUser.mk "U" "Alice" "patient" true)) 0, Event.connect "c2", Event.authenticate "c2" (some (AuthUser.mk "U" "Alice" "patient" true)) 1, Event.disconnect "c1" "transport close"]).activeUsers = none) := by
  decide

/-- C3 counterexample: joinTherapySession does not perform the joinGroup
room-membership mechanics: after a connection in room "g" joins therapy
session s7, it is still a member of "g" and its userRooms entry is still
["g"] rather than the singleton therapy room. -/
theorem joinTherapySession_counterexample :
    (getSocket "c1" (onJoinTherapySession (ServerState.mk [("U", ActiveUserEntry.mk "c1" "Alice" "patient" 0)] [("U", ["g"])] [Socket.mk "c1" (some "U") "Alice" "patient" ["c1", "g"]]) "c1" "s7").1.sockets
        = some (Socket.mk "c1" (some "U") "Alice" "patient" ["c1", "g", "therapy_s7"])) ∧
    (assocGet "U" (onJoinTherapySession (ServerState.mk [("U", ActiveUserEntry.mk "c1" "Alice" "patient" 0)] [("U", ["g"])] [Socket.mk "c1" (some "U") "Alice" "patient" ["c1", "g"]]) "c1" "s7").1.userRooms = some ["g"]) := by
  decide

/-- C3 (amended): joinTherapySession only adds the session-derived room
therapy_<sessionId> to the connection's room set and broadcasts the
presence event to the other members of that room; it does not leave any
previous room and does not modify the Room Membership entry. -/
theorem joinTherapySession_mechanics (st : ServerState) (sid sess u : String) (s : Socket)
    (hs : getSocket sid st.sockets = some s) (hu : s.userId = some u) :
    (onJoinTherapySession st sid sess).1.userRooms = st.userRooms ∧
    (onJoinTherapySession st sid sess).1.activeUsers = st.activeUsers ∧
    getSocket sid (onJoinTherapySession st sid sess).1.sockets
        = some { s with rooms := joinRoom ("therapy_" ++ sess) s.rooms } ∧
    (onJoinTherapySession st sid sess).2
        = [Emitted.mk (Target.roomExcept ("therapy_" ++ sess) sid)
            (OutEvent.therapyUserJoined u s.userName s.userRole)] ∧
    (∀ t ∈ (onJoinTherapySession st sid sess).1.sockets,
       receivesEmit (Emitted.mk (Target.roomExcept ("therapy_" ++ sess) sid)
         (OutEvent.therapyUserJoined u s.userName s.userRole)) t = true
       ↔ (("therapy_" ++ sess) ∈ t.rooms ∧ t.sid ≠ sid)) := by
  refine ⟨?_, ?_, ?_, ?_, ?_⟩
  · simp [onJoinTherapySession, hs, hu]
  · simp [onJoinTherapySession, hs, hu]
  · simp only [onJoinTherapySession, hs, hu]
    rw [getSocket_update (fun s0 => { s0 with rooms := joinRoom ("therapy_" ++ sess) s0.rooms }) st.sockets (fun s0 => rfl), hs]
    simp [hu]
  · simp [onJoinTherapySession, hs, hu]
  · intro t ht
    simp [receivesEmit]

/-- C3 witness: a concrete therapy-session join from a socket already in
room "g". -/
theorem joinTherapySession_mechanics_witness :
    ((onJoinTherapySession (ServerState.mk [] [("U", ["g"])] [Socket.mk "c1" (some "U") "Alice" "patient" ["c1", "g"]]) "c1" "s7").1.userRooms = (ServerState.mk [] [("U", ["g"])] [Socket.mk "c1" (some "U") "Alice" "patient" ["c1", "g"]]).userRooms) ∧
    ((onJoinTherapySession (ServerState.mk [] [("U", ["g"])] [Socket.mk "c1" (some "U") "Alice" "patient" ["c1", "g"]]) "c1" "s7").1.activeUsers = (ServerState.mk [] [("U", ["g"])] [Socket.mk "c1" (some "U") "Alice" "patient" ["c1", "g"]]).activeUsers) ∧
    (getSocket "c1" (onJoinTherapySession (ServerState.mk [] [("U", ["g"])] [Socket.mk "c1" (some "U") "Alice" "patient" ["c1", "g"]]) "c1" "s7").1.sockets
        = some { Socket.mk "c1" (some "U") "Alice" "patient" ["c1", "g"] with rooms := joinRoom ("therapy_" ++ "s7") (Socket.mk "c1" (some "U") "Alice" "patient" ["c1", "g"]).rooms }) ∧
    ((onJoinTherapySession (ServerState.mk [] [("U", ["g"])] [Socket.mk "c1" (some "U") "Alice" "patient" ["c1", "g"]]) "c1" "s7").2
        = [Emitted.mk (Target.roomExcept ("therapy_" ++ "s7") "c1")
            (OutEvent.therapyUserJoined "U" "Alice" "patient")]) ∧
    (∀ t ∈ (onJoinTherapySession (ServerState.mk [] [("U", ["g"])] [Socket.mk "c1" (some "U") "Alice" "patient" ["c1", "g"]]) "c1" "s7").1.sockets,
       receivesEmit (Emitted.mk (Target.roomExcept ("therapy_" ++ "s7") "c1")
         (OutEvent.therapyUserJoined "U" "Alice" "patient")) t = true
       ↔ (("therapy_" ++ "s7") ∈ t.rooms ∧ t.sid ≠ "c1")) :=
  joinTherapySession_mechanics (ServerState.mk [] [("U", ["g"])] [Socket.mk "c1" (some "U") "Alice" "patient" ["c1", "g"]]) "c1" "s7" "U"
    (Socket.mk "c1" (some "U") "Alice" "patient" ["c1", "g"]) (by decide) (by decide)

/-- C5 (amended): along any interleaving of events in which no user id
completes successful authentication twice, every user id that has a Room
Membership entry also has a Connection Registry entry, in every reachable
state. -/
theorem userRooms_subset_registry_of_unique_auth (evs : List Event)
    (hnd : (authIds evs).Nodup) :
    ∀ u ∈ assocKeys (run initState evs).userRooms,
      u ∈ assocKeys (run initState evs).activeUsers :=
  (run_good evs initState initState_good hnd
    (by intro u hu; simp [assignedIds, initState] at hu)).1

/-- C5 witness: a concrete connect-authenticate-join trace. -/
theorem userRooms_subset_registry_witness :
    ("U" ∈ assocKeys (run initState [Event.connect "c1", Event.authenticate "c1" (some (AuthUser.mk "U" "Alice" "patient" true)) 0, Event.joinGroup "c1" "grief-support"]).userRooms) ∧
    ("U" ∈ assocKeys (run initState [Event.connect "c1", Event.authenticate "c1" (some (AuthUser.mk "U" "Alice" "patient" true)) 0, Event.joinGroup "c1" "grief-support"]).activeUsers) :=
  ⟨by decide,
   userRooms_subset_registry_of_unique_auth
     [Event.connect "c1", Event.authenticate "c1" (some (AuthUser.mk "U" "Alice" "patient" true)) 0, Event.joinGroup "c1" "grief-support"]
     (by decide) "U" (by decide)⟩

/-- C5 counterexample: with a duplicate login, reachable states violate the
claimed invariant - after U authenticates on c1 and c2 and c1 disconnects,
c2 can still create a userRooms entry for U while U has no registry
entry. -/
theorem userRooms_subset_registry_counterexample :
    ("U" ∈ assocKeys (run initState [Event.connect "c1", Event.authenticate "c1" (some (AuthUser.mk "U" "Alice" "patient" true)) 0, Event.connect "c2", Event.authenticate "c2" (some (AuthUser.mk "U" "Alice" "patient" true)) 1, Event.disconnect "c1" "transport close", Event.joinGroup "c2" "grief-support"]).userRooms) ∧
    ("U" ∉ assocKeys (run initState [Event.connect "c1", Event.authenticate "c1" (some (AuthUser.mk "U" "Alice" "patient" true)) 0, Event.connect "c2", Event.authenticate "c2" (some (AuthUser.mk "U" "Alice" "patient" true)) 1, Event.disconnect "c1" "transport close", Event.joinGroup "c2" "grief-support"]).activeUsers) := by
  decide

/-- C6: an authenticated sender with a present room id and a body non-empty
after trimming produces exactly one message event carrying the trimmed
body, the fresh message id, the sender's identity and the timestamp,
delivered to exactly the sockets joined to the room (and in particular to
the sender whenever the sender is joined to it); the state is unchanged. -/
theorem sendMessage_room_fanout (st : ServerState) (sid u g m msgId : String)
    (now : Nat) (s : Socket)
    (hs : getSocket sid st.sockets = some s) (hu : s.userId = some u)
    (hg : g ≠ "") (hm : jsTrim m ≠ "") :
    (onSendMessage st sid (some g) (some m) msgId now).1 = st ∧
    (onSendMessage st sid (some g) (some m) msgId now).2
        = [Emitted.mk (Target.room g) (OutEvent.message
            (MessageData.mk msgId u s.userName s.userRole (jsTrim m) now g))] ∧
    (∀ t ∈ st.sockets,
        receivesEmit (Emitted.mk (Target.room g) (OutEvent.message
          (MessageData.mk msgId u s.userName s.userRole (jsTrim m) now g))) t = true ↔ g ∈ t.rooms) ∧
    (g ∈ s.rooms → receivesEmit (Emitted.mk (Target.room g) (OutEvent.message
          (MessageData.mk msgId u s.userName s.userRole (jsTrim m) now g))) s = true) := by
  have hm0 : m ≠ "" := by
    intro h
    rw [h] at hm
    exact hm (by decide)
  have hc1 : jsFalsy (some g) = false := jsFalsy_some_false hg
  have hc2 : jsFalsy (some m) = false := jsFalsy_some_false hm0
  have hc3 : jsFalsy (some (jsTrim m)) = false := jsFalsy_some_false hm
  refine ⟨?_, ?_, ?_, ?_⟩
  · simp [onSendMessage, hs, hu, hc1, hc2, hc3]
  · simp [onSendMessage, hs, hu, hc1, hc2, hc3]
  · intro t ht
    simp [receivesEmit]
  · intro hmem
    simp [receivesEmit, hmem]

/-- C6 witness: two sockets in room "g"; the sender is one of them. -/
theorem sendMessage_room_fanout_witness :
    ((onSendMessage (ServerState.mk [] [] [Socket.mk "c1" (some "U") "Alice" "patient" ["c1", "g"], Socket.mk "c2" (some "V") "Bob" "caregiver" ["c2", "g"]]) "c1" (some "g") (some " hello ") "m1" 9).1 = ServerState.mk [] [] [Socket.mk "c1" (some "U") "Alice" "patient" ["c1", "g"], Socket.mk "c2" (some "V") "Bob" "caregiver" ["c2", "g"]]) ∧
    ((onSendMessage (ServerState.mk [] [] [Socket.mk "c1" (some "U") "Alice" "patient" ["c1", "g"], Socket.mk "c2" (some "V") "Bob" "caregiver" ["c2", "g"]]) "c1" (some "g") (some " hello ") "m1" 9).2
        = [Emitted.mk (Target.room "g") (OutEvent.message
            (MessageData.mk "m1" "U" "Alice" "patient" (jsTrim " hello ") 9 "g"))]) ∧
    (∀ t ∈ (ServerState.mk [] [] [Socket.mk "c1" (some "U") "Alice" "patient" ["c1", "g"], Socket.mk "c2" (some "V") "Bob" "caregiver" ["c2", "g"]]).sockets,
        receivesEmit (Emitted.mk (Target.room "g") (OutEvent.message
          (MessageData.mk "m1" "U" "Alice" "patient" (jsTrim " hello ") 9 "g"))) t = true ↔ "g" ∈ t.rooms) ∧
    ("g" ∈ (Socket.mk "c1" (some "U") "Alice" "patient" ["c1", "g"]).rooms →
        receivesEmit (Emitted.mk (Target.room "g") (OutEvent.message
          (MessageData.mk "m1" "U" "Alice" "patient" (jsTrim " hello ") 9 "g"))) (Socket.mk "c1" (some "U") "Alice" "patient" ["c1", "g"]) = true) :=
  sendMessage_room_fanout (ServerState.mk [] [] [Socket.mk "c1" (some "U") "Alice" "patient" ["c1", "g"], Socket.mk "c2" (some "V") "Bob" "caregiver" ["c2", "g"]]) "c1" "U" "g" " hello " "m1" 9
    (Socket.mk "c1" (some "U") "Alice" "patient" ["c1", "g"]) (by decide) (by decide) (by decide) (by decide)

/-- C9: sendMessage performs no room-membership check on the sender: an
authenticated sender that is not joined to the target room still causes the
broadcast to the room's current members, and the sender itself receives no
copy. -/
theorem sendMessage_no_membership_check (st : ServerState) (sid u g m msgId : String)
    (now : Nat) (s : Socket)
    (hs : getSocket sid st.sockets = some s) (hu : s.userId = some u)
    (hg : g ≠ "") (hm : jsTrim m ≠ "") (hnotmem : g ∉ s.rooms) :
    (onSendMessage st sid (some g) (some m) msgId now).2
        = [Emitted.mk (Target.room g) (OutEvent.message
            (MessageData.mk msgId u s.userName s.userRole (jsTrim m) now g))] ∧
    (∀ t ∈ st.sockets,
        receivesEmit (Emitted.mk (Target.room g) (OutEvent.message
          (MessageData.mk msgId u s.userName s.userRole (jsTrim m) now g))) t = true ↔ g ∈ t.rooms) ∧
    receivesEmit (Emitted.mk (Target.room g) (OutEvent.message
        (MessageData.mk msgId u s.userName s.userRole (jsTrim m) now g))) s = false := by
  have hm0 : m ≠ "" := by
    intro h
    rw [h] at hm
    exact hm (by decide)
  have hc1 : jsFalsy (some g) = false := jsFalsy_some_false hg
  have hc2 : jsFalsy (some m) = false := jsFalsy_some_false hm0
  have hc3 : jsFalsy (some (jsTrim m)) = false := jsFalsy_some_false hm
  refine ⟨?_, ?_, ?_⟩
  · simp [onSendMessage, hs, hu, hc1, hc2, hc3]
  · intro t ht
    simp [receivesEmit]
  · simp [receivesEmit, hnotmem]

/-- C9 witness: the sender is in no room except its own; room "g" holds
only the other socket. -/
theorem sendMessage_no_membership_check_witness :
    ((onSendMessage (ServerState.mk [] [] [Socket.mk "c1" (some "U") "Alice" "patient" ["c1"], Socket.mk "c2" (some "V") "Bob" "caregiver" ["c2", "g"]]) "c1" (some "g") (some "hi") "m1" 9).2
        = [Emitted.mk (Target.room "g") (OutEvent.message
            (MessageData.mk "m1" "U" "Alice" "patient" (jsTrim "hi") 9 "g"))]) ∧
    (∀ t ∈ (ServerState.mk [] [] [Socket.mk "c1" (some "U") "Alice" "patient" ["c1"], Socket.mk "c2" (some "V") "Bob" "caregiver" ["c2", "g"]]).sockets,
        receivesEmit (Emitted.mk (Target.room "g") (OutEvent.message
          (MessageData.mk "m1" "U" "Alice" "patient" (jsTrim "hi") 9 "g"))) t = true ↔ "g" ∈ t.rooms) ∧
    receivesEmit (Emitted.mk (Target.room "g") (OutEvent.message
        (MessageData.mk "m1" "U" "Alice" "patient" (jsTrim "hi") 9 "g"))) (Socket.mk "c1" (some "U") "Alice" "patient" ["c1"]) = false :=
  sendMessage_no_membership_check (ServerState.mk [] [] [Socket.mk "c1" (some "U") "Alice" "patient" ["c1"], Socket.mk "c2" (some "V") "Bob" "caregiver" ["c2", "g"]]) "c1" "U" "g" "hi" "m1" 9
    (Socket.mk "c1" (some "U") "Alice" "patient" ["c1"]) (by decide) (by decide) (by decide) (by decide) (by decide)

/-- C7: a private message from an authenticated sender to a recipient id
absent from activeUsers produces exactly one error event addressed to the
sender only, no privateMessage event to anyone, and leaves the state
unchanged (in particular nothing is stored for later delivery - the model,
like the source, has no queue). -/
theorem privateMessage_offline_recipient (st : ServerState) (sid u rid m msgId : String)
    (now : Nat) (s : Socket)
    (hs : getSocket sid st.sockets = some s) (hu : s.userId = some u)
    (hrid : rid ≠ "") (hm : jsTrim m ≠ "")
    (hoff : assocGet rid st.activeUsers = none) :
    onPrivateMessage st sid (some rid) (some m) msgId now
        = (st, [Emitted.mk (Target.direct sid) (OutEvent.errorEv "Recipient not found or offline")]) ∧
    (∀ t ∈ st.sockets,
        receivesEmit (Emitted.mk (Target.direct sid)
          (OutEvent.errorEv "Recipient not found or offline")) t = true ↔ t.sid = sid) := by
  have hm0 : m ≠ "" := by
    intro h
    rw [h] at hm
    exact hm (by decide)
  have hc1 : jsFalsy (some rid) = false := jsFalsy_some_false hrid
  have hc2 : jsFalsy (some m) = false := jsFalsy_some_false hm0
  have hc3 : jsFalsy (some (jsTrim m)) = false := jsFalsy_some_false hm
  constructor
  · simp [onPrivateMessage, hs, hu, hc1, hc2, hc3, hoff]
  · intro t ht
    simp [receivesEmit]

/-- C7 witness: recipient "C" is not registered. -/
theorem privateMessage_offline_recipient_witness :
    (onPrivateMessage (ServerState.mk [("U", ActiveUserEntry.mk "c1" "Alice" "patient" 0)] [] [Socket.mk "c1" (some "U") "Alice" "patient" ["c1"]]) "c1" (some "C") (some "hello") "m1" 3
        = (ServerState.mk [("U", ActiveUserEntry.mk "c1" "Alice" "patient" 0)] [] [Socket.mk "c1" (some "U") "Alice" "patient" ["c1"]], [Emitted.mk (Target.direct "c1") (OutEvent.errorEv "Recipient not found or offline")])) ∧
    (∀ t ∈ (ServerState.mk [("U", ActiveUserEntry.mk "c1" "Alice" "patient" 0)] [] [Socket.mk "c1" (some "U") "Alice" "patient" ["c1"]]).sockets,
        receivesEmit (Emitted.mk (Target.direct "c1")
          (OutEvent.errorEv "Recipient not found or offline")) t = true ↔ t.sid = "c1") :=
  privateMessage_offline_recipient (ServerState.mk [("U", ActiveUserEntry.mk "c1" "Alice" "patient" 0)] [] [Socket.mk "c1" (some "U") "Alice" "patient" ["c1"]]) "c1" "U" "C" "hello" "m1" 3
    (Socket.mk "c1" (some "U") "Alice" "patient" ["c1"]) (by decide) (by decide) (by decide) (by decide) (by decide)

/-- C8: on a connection that has not authenticated, joinGroup, sendMessage
and privateMessage emit a single error event addressed to that connection
only and change nothing, and typing and videoCallSignal produce no event at
all and change nothing. -/
theorem unauthenticated_handlers_no_effect (st : ServerState) (sid : String) (s : Socket)
    (hs : getSocket sid st.sockets = some s) (hu : s.userId = none) :
    (∀ g, onJoinGroup st sid g
        = (st, [Emitted.mk (Target.direct sid) (OutEvent.errorEv "Authentication required")])) ∧
    (∀ gid msg mi t, onSendMessage st sid gid msg mi t
        = (st, [Emitted.mk (Target.direct sid) (OutEvent.errorEv "Authentication required")])) ∧
    (∀ rid msg mi t, onPrivateMessage st sid rid msg mi t
        = (st, [Emitted.mk (Target.direct sid) (OutEvent.errorEv "Authentication required")])) ∧
    (∀ g b, onTyping st sid g b = (st, [])) ∧
    (∀ sess sig ty, onVideoCallSignal st sid sess sig ty = (st, [])) ∧
    (∀ t ∈ st.sockets,
        receivesEmit (Emitted.mk (Target.direct sid)
          (OutEvent.errorEv "Authentication required")) t = true ↔ t.sid = sid) := by
  refine ⟨?_, ?_, ?_, ?_, ?_, ?_⟩
  · intro g
    simp [onJoinGroup, hs, hu]
  · intro gid msg mi t
    simp [onSendMessage, hs, hu]
  · intro rid msg mi t
    simp [onPrivateMessage, hs, hu]
  · intro g b
    simp [onTyping, hs, hu]
  · intro sess sig ty
    simp [onVideoCallSignal, hs, hu]
  · intro t ht
    simp [receivesEmit]

/-- C8 witness: a fresh unauthenticated socket next to an authenticated one. -/
theorem unauthenticated_handlers_no_effect_witness :
    (∀ g, onJoinGroup (ServerState.mk [("V", ActiveUserEntry.mk "c2" "Bob" "caregiver" 0)] [("V", ["g"])] [Socket.mk "c1" none "" "" ["c1"], Socket.mk "c2" (some "V") "Bob" "caregiver" ["c2", "g"]]) "c1" g
        = (ServerState.mk [("V", ActiveUserEntry.mk "c2" "Bob" "caregiver" 0)] [("V", ["g"])] [Socket.mk "c1" none "" "" ["c1"], Socket.mk "c2" (some "V") "Bob" "caregiver" ["c2", "g"]], [Emitted.mk (Target.direct "c1") (OutEvent.errorEv "Authentication required")])) ∧
    (∀ gid msg mi t, onSendMessage (ServerState.mk [("V", ActiveUserEntry.mk "c2" "Bob" "caregiver" 0)] [("V", ["g"])] [Socket.mk "c1" none "" "" ["c1"], Socket.mk "c2" (some "V") "Bob" "caregiver" ["c2", "g"]]) "c1" gid msg mi t
        = (ServerState.mk [("V", ActiveUserEntry.mk "c2" "Bob" "caregiver" 0)] [("V", ["g"])] [Socket.mk "c1" none "" "" ["c1"], Socket.mk "c2" (some "V") "Bob" "caregiver" ["c2", "g"]], [Emitted.mk (Target.direct "c1") (OutEvent.errorEv "Authentication required")])) ∧
    (∀ rid msg mi t, onPrivateMessage (ServerState.mk [("V", ActiveUserEntry.mk "c2" "Bob" "caregiver" 0)] [("V", ["g"])] [Socket.mk "c1" none "" "" ["c1"], Socket.mk "c2" (some "V") "Bob" "caregiver" ["c2", "g"]]) "c1" rid msg mi t
        = (ServerState.mk [("V", ActiveUserEntry.mk "c2" "Bob" "caregiver" 0)] [("V", ["g"])] [Socket.mk "c1" none "" "" ["c1"], Socket.mk "c2" (some "V") "Bob" "caregiver" ["c2", "g"]], [Emitted.mk (Target.direct "c1") (OutEvent.errorEv "Authentication required")])) ∧
    (∀ g b, onTyping (ServerState.mk [("V", ActiveUserEntry.mk "c2" "Bob" "caregiver" 0)] [("V", ["g"])] [Socket.mk "c1" none "" "" ["c1"], Socket.mk "c2" (some "V") "Bob" "caregiver" ["c2", "g"]]) "c1" g b = (ServerState.mk [("V", ActiveUserEntry.mk "c2" "Bob" "caregiver" 0)] [("V", ["g"])] [Socket.mk "c1" none "" "" ["c1"], Socket.mk "c2" (some "V") "Bob" "caregiver" ["c2", "g"]], [])) ∧
    (∀ sess sig ty, onVideoCallSignal (ServerState.mk [("V", ActiveUserEntry.mk "c2" "Bob" "caregiver" 0)] [("V", ["g"])] [Socket.mk "c1" none "" "" ["c1"], Socket.mk "c2" (some "V") "Bob" "caregiver" ["c2", "g"]]) "c1" sess sig ty = (ServerState.mk [("V", ActiveUserEntry.mk "c2" "Bob" "caregiver" 0)] [("V", ["g"])] [Socket.mk "c1" none "" "" ["c1"], Socket.mk "c2" (some "V") "Bob" "caregiver" ["c2", "g"]], [])) ∧
    (∀ t ∈ (ServerState.mk [("V", ActiveUserEntry.mk "c2" "Bob" "caregiver" 0)] [("V", ["g"])] [Socket.mk "c1" none "" "" ["c1"], Socket.mk "c2" (some "V") "Bob" "caregiver" ["c2", "g"]]).sockets,
        receivesEmit (Emitted.mk (Target.direct "c1")
          (OutEvent.errorEv "Authentication required")) t = true ↔ t.sid = "c1") :=
  unauthenticated_handlers_no_effect (ServerState.mk [("V", ActiveUserEntry.mk "c2" "Bob" "caregiver" 0)] [("V", ["g"])] [Socket.mk "c1" none "" "" ["c1"], Socket.mk "c2" (some "V") "Bob" "caregiver" ["c2", "g"]]) "c1"
    (Socket.mk "c1" none "" "" ["c1"]) (by decide) (by decide)

/-- C10: sendNotificationToUser emits exactly one notification event
addressed to the registered socket of the user and returns true when the
user id is present in activeUsers, and emits nothing and returns false when
it is absent. -/
theorem sendNotificationToUser_spec (st : ServerState) (userId payload : String) :
    (∀ info, assocGet userId st.activeUsers = some info →
        sendNotificationToUser st userId payload
          = ([Emitted.mk (Target.room info.socketId) (OutEvent.notifyUser payload)], true)) ∧
    (assocGet userId st.activeUsers = none →
        sendNotificationToUser st userId payload = ([], false)) := by
  constructor
  · intro info hinfo
    simp [sendNotificationToUser, hinfo]
  · intro hnone
    simp [sendNotificationToUser, hnone]

/-- C10 witness: one registered user and one absent user. -/
theorem sendNotificationToUser_spec_witness :
    (sendNotificationToUser (ServerState.mk [("U", ActiveUserEntry.mk "c1" "Alice" "patient" 0)] [] [Socket.mk "c1" (some "U") "Alice" "patient" ["c1"]]) "U" "ping"
        = ([Emitted.mk (Target.room "c1") (OutEvent.notifyUser "ping")], true)) ∧
    (sendNotificationToUser (ServerState.mk [("U", ActiveUserEntry.mk "c1" "Alice" "patient" 0)] [] [Socket.mk "c1" (some "U") "Alice" "patient" ["c1"]]) "W" "ping"
        = ([], false)) :=
  ⟨(sendNotificationToUser_spec (ServerState.mk [("U", ActiveUserEntry.mk "c1" "Alice" "patient" 0)] [] [Socket.mk "c1" (some "U") "Alice" "patient" ["c1"]]) "U" "ping").1
      (ActiveUserEntry.mk "c1" "Alice" "patient" 0) (by decide),
   (sendNotificationToUser_spec (ServerState.mk [("U", ActiveUserEntry.mk "c1" "Alice" "patient" 0)] [] [Socket.mk "c1" (some "U") "Alice" "patient" ["c1"]]) "W" "ping").2 (by decide)⟩

end Ashraya
